import Mathlib

/-!
Verification of the seaweed scale-up simulation engine
(src/scaleup_model.py), shallowly embedded over real arithmetic.

The day-by-day growth-and-harvest state machine of
SeaweedScaleUpModel.seaweed_growth is embedded as a step function
dayStep on an explicit EngineState, iterated by runAux.  Python
assertion failures and raised exceptions are modelled with Except.
Line numbers in comments refer to src/scaleup_model.py.
-/

/-- Runtime failures of the engine: Python assertion errors and raised
exceptions, classified by the site that raises them. -/
inductive RunError where
  | domainError
  | shadingAssert
  | typeError
  | indexError
  | growthRateAssert
  | harvestLossAssert
  deriving DecidableEq

/-- Shape of the growth_rate_fraction argument: a Python float (line 129),
a Python list (line 136), or a value of any other runtime type, which makes
the engine raise TypeError at line 151. -/
inductive GrowthInput where
  | scalar (g : ℝ)
  | series (gs : List ℝ)
  | invalid

/-- Growth-rate attenuation by self shading (lines 274-290).  The assert
on line 286 is modelled as a domainError. -/
noncomputable def self_shading (density : ℝ) : Except RunError ℝ :=
  if 0 < density then
    if density < 0.4 then .ok 1
    else .ok (Real.exp (-0.513 * (density - 0.4)))
  else .error .domainError

/-- Logistic growth curve (lines 345-357). -/
noncomputable def logistic_curve (x max_L k x0 off : ℝ) : ℝ :=
  max_L / (1 + Real.exp (-k * (x - x0))) + off

/-- Area buildable per day from the fitted logistic curve (lines 324-342). -/
noncomputable def seaweed_farm_area_per_day (day : ℝ) : ℝ :=
  logistic_curve day 4156.10385 0.0283799528 157.630971 (-41.0270637)

/-- Seaweed needed to feed the population (lines 293-321). -/
noncomputable def calculate_seaweed_need (global_pop calories_per_person_per_day
    food_waste calories_per_t_seaweed_wet seaweed_limit : ℝ) : ℝ :=
  global_pop * calories_per_person_per_day * (1 + food_waste / 100) * seaweed_limit
    / calories_per_t_seaweed_wet

/-- Immutable arguments of one seaweed_growth invocation (lines 47-63);
harvest_loss is the instance attribute set in the constructor (line 28). -/
structure RunConfig where
  initial_seaweed : ℝ
  initial_area_built : ℝ
  initial_area_used : ℝ
  new_module_area_per_day : ℝ
  min_density : ℝ
  max_density : ℝ
  max_area : ℝ
  optimal_growth_rate : ℝ
  growth_rate_fraction : GrowthInput
  initial_lag : ℕ
  percent_usable_for_growth : ℝ
  days_to_run : ℕ
  harvest_loss : ℝ
  calibration_run : Bool

/-- Mutable engine state across days (lines 84-94).  The density field is
only recomputed at lines 87 and 157, so after a harvest it keeps the
pre-harvest value until the next day. -/
structure EngineState where
  area_built : ℝ
  area_used : ℝ
  seaweed : ℝ
  density : ℝ
  new_module_area : ℝ
  current_seaweed_need : ℝ
  cumulative_harvest_for_food : ℝ
  harvest_intervall : ℕ
  track_max_area : Bool

/-- One fully written row of the dataframe df for a day that completed
without an error (all df.loc writes of lines 96-212).  Fields that are only
written on harvest days are Options. -/
structure DailyRecord where
  new_module_area_per_day : ℝ
  actual_growth_rate_multiplicator : ℝ
  harvest_intervall : Option ℕ
  seaweed_remaining_to_grow : Option ℝ
  harvest_wet : Option ℝ
  harvest_wet_with_loss : Option ℝ
  harvest_for_food : Option ℝ
  new_area_used : Option ℝ
  current_seaweed_need : ℝ
  current_area_built : ℝ
  current_area_used : ℝ
  current_seaweed : ℝ
  current_density : ℝ
  cumulative_harvest_for_food : ℝ

/-- Row fields of the failing day that were already written to df before
the error was raised, in source order: the area entry (lines 110-122), the
multiplier (line 153), and the three harvest entries (lines 164-175)
preceding the harvest-loss assert (line 181). -/
structure PendingRow where
  new_module_area_per_day : Option ℝ
  actual_growth_rate_multiplicator : Option ℝ
  harvest_intervall : Option ℕ
  seaweed_remaining_to_grow : Option ℝ
  harvest_wet : Option ℝ

/-- Replacement of the build rate by the logistic provider when it is
positive (lines 100-101). -/
noncomputable def dailyBuildArea (day : ℕ) (nma : ℝ) : ℝ :=
  if 0 < nma then seaweed_farm_area_per_day day else nma

/-- Result of the building block of a day (lines 107-122). -/
structure BuildResult where
  area_built : ℝ
  recorded_new_module_area : ℝ
  track_max_area : Bool

/-- Daily area building (lines 107-122): build only after the initial lag
and strictly below the maximum area, clamping at the maximum (lines
113-115); otherwise record a build of zero. -/
noncomputable def buildStep (cfg : RunConfig) (day : ℕ) (nma ga built : ℝ)
    (track : Bool) : BuildResult :=
  if cfg.initial_lag < day then
    if built < cfg.max_area then
      { area_built := if cfg.max_area < built + ga then cfg.max_area else built + ga
        recorded_new_module_area := nma
        track_max_area := track }
    else
      { area_built := built
        recorded_new_module_area := 0
        track_max_area := if cfg.calibration_run then track else true }
  else
    { area_built := built
      recorded_new_module_area := 0
      track_max_area := track }

/-- Daily growth multiplier dispatch on the shape of growth_rate_fraction
(lines 129-151), including the asserts guarding each branch and the list
indexing by the current day (line 145). -/
noncomputable def actualGrowthRate (gin : GrowthInput) (ogr ssf : ℝ) (day : ℕ) :
    Except RunError ℝ :=
  match gin with
  | .scalar g =>
      if ssf ≤ 1 ∧ 0 ≤ ssf then .ok (1 + (ogr * g * ssf) / 100)
      else .error .shadingAssert
  | .series gs =>
      if ∀ x ∈ gs, x ≤ 1 ∧ 0 ≤ x then
        match gs[day]? with
        | some g => .ok (1 + (ogr * g * ssf) / 100)
        | none => .error .indexError
      else .error .shadingAssert
  | .invalid => .error .typeError

/-- Result of the harvest block of a day (lines 158-204), together with the
df fields it writes. -/
structure HarvestResult where
  area_used : ℝ
  seaweed : ℝ
  seaweed_need : ℝ
  cumulative_harvest_for_food : ℝ
  harvest_intervall : ℕ
  rec_harvest_intervall : Option ℕ
  rec_seaweed_remaining_to_grow : Option ℝ
  rec_harvest_wet : Option ℝ
  rec_harvest_wet_with_loss : Option ℝ
  rec_harvest_for_food : Option ℝ
  rec_new_area_used : Option ℝ

/-- Harvest check and redistribution (lines 158-204), including the final
unconditional increment of the interval counter (line 204).  A failing
harvest-loss assert (line 181) reports the interval, remaining-biomass and
wet-harvest values already written to df at that point. -/
noncomputable def harvestStep (cfg : RunConfig) (built used seaweed density : ℝ)
    (hi : ℕ) (cum prev_need : ℝ) : Except (ℕ × ℝ × ℝ) HarvestResult :=
  if cfg.max_density ≤ density then
    let seaweed_remaining_to_grow := used * cfg.min_density
    let harvest_wet := seaweed - seaweed_remaining_to_grow
    let harvest_loss := cfg.harvest_loss / 100
    if harvest_loss ≤ 1 ∧ 0 ≤ harvest_loss then
      let harvest_wet_with_loss := harvest_wet * (1 - harvest_loss)
      let need := (built - used) * cfg.min_density
      if harvest_wet_with_loss < need then
        .ok { area_used := used + need / cfg.min_density
              seaweed := seaweed_remaining_to_grow + harvest_wet_with_loss
              seaweed_need := need
              cumulative_harvest_for_food := cum
              harvest_intervall := 1
              rec_harvest_intervall := some hi
              rec_seaweed_remaining_to_grow := some seaweed_remaining_to_grow
              rec_harvest_wet := some harvest_wet
              rec_harvest_wet_with_loss := some harvest_wet_with_loss
              rec_harvest_for_food := none
              rec_new_area_used := some (need / cfg.min_density) }
      else
        .ok { area_used := used + need / cfg.min_density
              seaweed := (used + need / cfg.min_density) * cfg.min_density
              seaweed_need := need
              cumulative_harvest_for_food := cum + (harvest_wet_with_loss - need)
              harvest_intervall := 1
              rec_harvest_intervall := some hi
              rec_seaweed_remaining_to_grow := some seaweed_remaining_to_grow
              rec_harvest_wet := some harvest_wet
              rec_harvest_wet_with_loss := some harvest_wet_with_loss
              rec_harvest_for_food := some (harvest_wet_with_loss - need)
              rec_new_area_used := some (need / cfg.min_density) }
    else .error (hi, seaweed_remaining_to_grow, harvest_wet)
  else
    .ok { area_used := used
          seaweed := seaweed
          seaweed_need := prev_need
          cumulative_harvest_for_food := cum
          harvest_intervall := hi + 1
          rec_harvest_intervall := none
          rec_seaweed_remaining_to_grow := none
          rec_harvest_wet := none
          rec_harvest_wet_with_loss := none
          rec_harvest_for_food := none
          rec_new_area_used := none }

/-- Raw build rate fed into a day (lines 100-101 applied to the state). -/
noncomputable def dayNMA (day : ℕ) (s : EngineState) : ℝ :=
  dailyBuildArea day s.new_module_area

/-- Building block of a day applied to the state (lines 100-122): the raw
rate is scaled by the usable percentage (lines 103-105) before building. -/
noncomputable def dayBuild (cfg : RunConfig) (day : ℕ) (s : EngineState) : BuildResult :=
  buildStep cfg day (dayNMA day s)
    (dayNMA day s * (cfg.percent_usable_for_growth / 100)) s.area_built s.track_max_area

/-- End-of-day engine state assembled from the day's sub-results. -/
noncomputable def assembleState (b : BuildResult) (nma density1 : ℝ)
    (h : HarvestResult) : EngineState :=
  { area_built := b.area_built
    area_used := h.area_used
    seaweed := h.seaweed
    density := density1
    new_module_area := nma
    current_seaweed_need := h.seaweed_need
    cumulative_harvest_for_food := h.cumulative_harvest_for_food
    harvest_intervall := h.harvest_intervall
    track_max_area := b.track_max_area }

/-- End-of-day df row assembled from the day's sub-results (the df.loc
writes of lines 110-122, 153, 164-212). -/
noncomputable def assembleRecord (b : BuildResult) (agr density1 : ℝ)
    (h : HarvestResult) : DailyRecord :=
  { new_module_area_per_day := b.recorded_new_module_area
    actual_growth_rate_multiplicator := agr
    harvest_intervall := h.rec_harvest_intervall
    seaweed_remaining_to_grow := h.rec_seaweed_remaining_to_grow
    harvest_wet := h.rec_harvest_wet
    harvest_wet_with_loss := h.rec_harvest_wet_with_loss
    harvest_for_food := h.rec_harvest_for_food
    new_area_used := h.rec_new_area_used
    current_seaweed_need := h.seaweed_need
    current_area_built := b.area_built
    current_area_used := h.area_used
    current_seaweed := h.seaweed
    current_density := density1
    cumulative_harvest_for_food := h.cumulative_harvest_for_food }

/-- One iteration of the daily loop (lines 96-212): build, self shading on
the stale density (line 123), growth (lines 129-157), harvest (lines
158-204), then the end-of-day df writes (lines 205-212).  On an error the
already-written df fields of the failing day are reported in a PendingRow. -/
noncomputable def dayStep (cfg : RunConfig) (day : ℕ) (s : EngineState) :
    Except (RunError × PendingRow) (EngineState × DailyRecord) :=
  match self_shading (s.density / 1000) with
  | .error e =>
      .error (e, ⟨some (dayBuild cfg day s).recorded_new_module_area, none, none, none, none⟩)
  | .ok ssf =>
    match actualGrowthRate cfg.growth_rate_fraction cfg.optimal_growth_rate ssf day with
    | .error e =>
        .error (e, ⟨some (dayBuild cfg day s).recorded_new_module_area, none, none, none, none⟩)
    | .ok agr =>
      if agr ≤ 2 ∧ 0 ≤ agr then
        match harvestStep cfg (dayBuild cfg day s).area_built s.area_used (s.seaweed * agr)
            (s.seaweed * agr / s.area_used) s.harvest_intervall
            s.cumulative_harvest_for_food s.current_seaweed_need with
        | .error hw3 =>
            .error (.harvestLossAssert,
              ⟨some (dayBuild cfg day s).recorded_new_module_area, some agr, some hw3.1,
                some hw3.2.1, some hw3.2.2⟩)
        | .ok h =>
            .ok (assembleState (dayBuild cfg day s) (dayNMA day s)
                   (s.seaweed * agr / s.area_used) h,
                 assembleRecord (dayBuild cfg day s) agr (s.seaweed * agr / s.area_used) h)
      else
        .error (.growthRateAssert,
          ⟨some (dayBuild cfg day s).recorded_new_module_area, some agr, none, none, none⟩)

/-- Remaining days of the loop, starting at a given day index with a given
state; returns the rows written for those days. -/
noncomputable def runAux (cfg : RunConfig) :
    ℕ → ℕ → EngineState → Except RunError (List DailyRecord)
  | _, 0, _ => .ok []
  | day, fuel + 1, s =>
    match dayStep cfg day s with
    | .error e => .error e.1
    | .ok sr =>
      match runAux cfg (day + 1) fuel sr.1 with
      | .error e => .error e
      | .ok t => .ok (sr.2 :: t)

/-- Engine state before day 0 (lines 84-94). -/
noncomputable def initState (cfg : RunConfig) : EngineState :=
  { area_built := cfg.initial_area_built
    area_used := cfg.initial_area_used
    seaweed := cfg.initial_seaweed
    density := cfg.initial_seaweed / cfg.initial_area_used
    new_module_area := cfg.new_module_area_per_day
    current_seaweed_need := 0
    cumulative_harvest_for_food := 0
    harvest_intervall := 0
    track_max_area := false }

/-- The whole seaweed_growth run (lines 47-213): the ordered rows for days
0 to days_to_run - 1, or the first error raised. -/
noncomputable def seaweed_growth (cfg : RunConfig) : Except RunError (List DailyRecord) :=
  runAux cfg 0 cfg.days_to_run (initState cfg)

/-- Whether a run completed without raising. -/
def runIsOk : Except RunError (List DailyRecord) → Bool
  | .ok _ => true
  | .error _ => false

/-- Fixed unit-area configuration of the calibration run (lines 234-248). -/
noncomputable def calibrationConfig (harvest_loss : ℝ) (grf : GrowthInput)
    (days_to_run : ℕ) (percent_usable_for_growth optimal_growth_rate : ℝ) : RunConfig :=
  { initial_seaweed := 1
    initial_area_built := 1
    initial_area_used := 1
    new_module_area_per_day := 0
    min_density := 1200
    max_density := 3600
    max_area := 1
    optimal_growth_rate := optimal_growth_rate
    growth_rate_fraction := grf
    initial_lag := 0
    percent_usable_for_growth := percent_usable_for_growth
    days_to_run := days_to_run
    harvest_loss := harvest_loss
    calibration_run := true }

/-- Productivity calibration (lines 215-271): run the engine on the fixed
unit-area configuration, take the last recorded harvest interval and the
last recorded food harvest; the try/except of lines 250-259 makes both
absent as soon as either column is missing, and productivity is their
quotient when both are present (lines 265-268). -/
noncomputable def determine_average_productivity (harvest_loss : ℝ)
    (growth_rate_fraction : GrowthInput) (days_to_run : ℕ)
    (percent_usable_for_growth optimal_growth_rate : ℝ) :
    Except RunError (Option ℝ) :=
  match seaweed_growth (calibrationConfig harvest_loss growth_rate_fraction
      days_to_run percent_usable_for_growth optimal_growth_rate) with
  | .error e => .error e
  | .ok t =>
    match (t.filterMap DailyRecord.harvest_intervall).getLast?,
        (t.filterMap DailyRecord.harvest_for_food).getLast? with
    | some i, some f => .ok (some (f / (i : ℝ)))
    | some _, none => .ok none
    | none, some _ => .ok none
    | none, none => .ok none

/-- Elimination principle for a successful day: names each intermediate
result and identifies the produced state and row. -/
lemma dayStep_ok_elim {cfg : RunConfig} {day : ℕ} {s s' : EngineState}
    {r : DailyRecord} (h : dayStep cfg day s = .ok (s', r)) :
    ∃ ssf agr hr,
      self_shading (s.density / 1000) = .ok ssf ∧
      actualGrowthRate cfg.growth_rate_fraction cfg.optimal_growth_rate ssf day = .ok agr ∧
      agr ≤ 2 ∧ 0 ≤ agr ∧
      harvestStep cfg (dayBuild cfg day s).area_built s.area_used (s.seaweed * agr)
        (s.seaweed * agr / s.area_used) s.harvest_intervall
        s.cumulative_harvest_for_food s.current_seaweed_need = .ok hr ∧
      s' = assembleState (dayBuild cfg day s) (dayNMA day s)
        (s.seaweed * agr / s.area_used) hr ∧
      r = assembleRecord (dayBuild cfg day s) agr (s.seaweed * agr / s.area_used) hr := by
  unfold dayStep at h
  cases hss : self_shading (s.density / 1000) with
  | error e => simp only [hss] at h; cases h
  | ok ssf =>
    simp only [hss] at h
    cases hag : actualGrowthRate cfg.growth_rate_fraction cfg.optimal_growth_rate ssf day with
    | error e => simp only [hag] at h; cases h
    | ok agr =>
      simp only [hag] at h
      by_cases henv : agr ≤ 2 ∧ 0 ≤ agr
      · rw [if_pos henv] at h
        cases hh : harvestStep cfg (dayBuild cfg day s).area_built s.area_used
            (s.seaweed * agr) (s.seaweed * agr / s.area_used) s.harvest_intervall
            s.cumulative_harvest_for_food s.current_seaweed_need with
        | error e3 => simp only [hh] at h; cases h
        | ok hres =>
          simp only [hh, Except.ok.injEq, Prod.mk.injEq] at h
          exact ⟨ssf, agr, hres, rfl, hag, henv.1, henv.2, hh, h.1.symm, h.2.symm⟩
      · rw [if_neg henv] at h; cases h

/-- The end-of-day df writes (lines 205-212) mirror the end-of-day state. -/
lemma dayStep_mirrors {cfg : RunConfig} {day : ℕ} {s s' : EngineState}
    {r : DailyRecord} (h : dayStep cfg day s = .ok (s', r)) :
    r.current_area_built = s'.area_built ∧ r.current_area_used = s'.area_used ∧
    r.current_seaweed = s'.seaweed ∧ r.current_density = s'.density ∧
    r.cumulative_harvest_for_food = s'.cumulative_harvest_for_food ∧
    r.current_seaweed_need = s'.current_seaweed_need := by
  obtain ⟨ssf, agr, hr, -, -, -, -, -, hs, hrr⟩ := dayStep_ok_elim h
  subst hs; subst hrr
  exact ⟨rfl, rfl, rfl, rfl, rfl, rfl⟩

/-- Preservation of a state predicate along a successful run: every row of
the output was produced by a successful day step from a state satisfying
the predicate. -/
lemma runAux_all (cfg : RunConfig) (P : EngineState → Prop)
    (hstep : ∀ day s s' r, dayStep cfg day s = .ok (s', r) → P s → P s') :
    ∀ fuel day s t, runAux cfg day fuel s = .ok t → P s →
      ∀ r ∈ t, ∃ day' s₀ s₁, P s₀ ∧ dayStep cfg day' s₀ = .ok (s₁, r) := by
  intro fuel
  induction fuel with
  | zero =>
    intro day s t h hP r hr
    simp only [runAux, Except.ok.injEq] at h
    subst h
    simp at hr
  | succ n ih =>
    intro day s t h hP r hr
    rw [runAux] at h
    cases hds : dayStep cfg day s with
    | error e => simp only [hds] at h; cases h
    | ok sr =>
      simp only [hds] at h
      cases hrest : runAux cfg (day + 1) n sr.1 with
      | error e => simp only [hrest] at h; cases h
      | ok t' =>
        simp only [hrest, Except.ok.injEq] at h
        subst h
        rcases List.mem_cons.mp hr with hEq | hMem
        · exact ⟨day, s, sr.1, hP, by rw [hEq]; simpa using hds⟩
        · exact ih (day + 1) sr.1 t' hrest (hstep day s sr.1 sr.2 (by simpa using hds) hP) r hMem

/-- Chaining of a transitive step relation along a successful run: every
row's producing state is related to the start state, and any two rows in
order are related. -/
lemma runAux_chain (cfg : RunConfig) (Q : EngineState → EngineState → Prop)
    (htrans : ∀ a b c, Q a b → Q b c → Q a c)
    (hstep : ∀ day s s' r, dayStep cfg day s = .ok (s', r) → Q s s') :
    ∀ fuel day s t, runAux cfg day fuel s = .ok t →
      (∀ r ∈ t, ∃ sr, (∃ day' s₀, dayStep cfg day' s₀ = .ok (sr, r)) ∧ Q s sr) ∧
      List.Pairwise (fun a b => ∃ sa sb, (∃ daya s₀, dayStep cfg daya s₀ = .ok (sa, a)) ∧
        (∃ dayb s₁, dayStep cfg dayb s₁ = .ok (sb, b)) ∧ Q sa sb) t := by
  intro fuel
  induction fuel with
  | zero =>
    intro day s t h
    simp only [runAux, Except.ok.injEq] at h
    subst h
    exact ⟨by simp, List.Pairwise.nil⟩
  | succ n ih =>
    intro day s t h
    rw [runAux] at h
    cases hds : dayStep cfg day s with
    | error e => simp only [hds] at h; cases h
    | ok sr =>
      simp only [hds] at h
      cases hrest : runAux cfg (day + 1) n sr.1 with
      | error e => simp only [hrest] at h; cases h
      | ok t' =>
        simp only [hrest, Except.ok.injEq] at h
        subst h
        obtain ⟨ih1, ih2⟩ := ih (day + 1) sr.1 t' hrest
        have hQ : Q s sr.1 := hstep day s sr.1 sr.2 (by simpa using hds)
        have hprod : ∃ day' s₀, dayStep cfg day' s₀ = .ok (sr.1, sr.2) :=
          ⟨day, s, by simpa using hds⟩
        constructor
        · intro r hr
          rcases List.mem_cons.mp hr with hEq | hMem
          · exact ⟨sr.1, by rw [hEq]; exact hprod, hQ⟩
          · obtain ⟨sb, hb, hQb⟩ := ih1 r hMem
            exact ⟨sb, hb, htrans s sr.1 sb hQ hQb⟩
        · refine List.Pairwise.cons ?_ ih2
          intro b hb
          obtain ⟨sb, hbp, hQb⟩ := ih1 b hb
          exact ⟨sr.1, sb, hprod, hbp, hQb⟩

/-- Cumulative food harvest never decreases in a successful harvest block:
case B adds a non-negative surplus (its guard), the other branches keep it. -/
lemma harvestStep_cum_le {cfg : RunConfig} {built used seaweed density : ℝ}
    {hi : ℕ} {cum prev_need : ℝ} {hr : HarvestResult}
    (h : harvestStep cfg built used seaweed density hi cum prev_need = .ok hr) :
    cum ≤ hr.cumulative_harvest_for_food := by
  simp only [harvestStep] at h
  split_ifs at h with h1 h2 h3
  · simp only [Except.ok.injEq] at h; subst h; simp
  · simp only [Except.ok.injEq] at h; subst h
    simp only [not_lt] at h3
    simp only
    linarith
  · simp only [Except.ok.injEq] at h; subst h; simp

/-- A successful harvest block leaves the used area unchanged or moves it
exactly to the built area (both harvest cases add need over min_density). -/
lemma harvestStep_area_used {cfg : RunConfig} {built used seaweed density : ℝ}
    {hi : ℕ} {cum prev_need : ℝ} {hr : HarvestResult}
    (hmin : cfg.min_density ≠ 0)
    (h : harvestStep cfg built used seaweed density hi cum prev_need = .ok hr) :
    hr.area_used = used ∨ hr.area_used = built := by
  simp only [harvestStep] at h
  split_ifs at h with h1 h2 h3
  · right
    simp only [Except.ok.injEq] at h; subst h
    simp only
    field_simp
  · right
    simp only [Except.ok.injEq] at h; subst h
    simp only
    field_simp
  · left
    simp only [Except.ok.injEq] at h; subst h
    rfl

/-- Harvest rows (a recorded interval) only arise when the density reached
the maximum density. -/
lemma harvestStep_flag_density {cfg : RunConfig} {built used seaweed density : ℝ}
    {hi : ℕ} {cum prev_need : ℝ} {hr : HarvestResult}
    (h : harvestStep cfg built used seaweed density hi cum prev_need = .ok hr)
    (hflag : hr.rec_harvest_intervall.isSome) : cfg.max_density ≤ density := by
  simp only [harvestStep] at h
  split_ifs at h with h1 h2 h3
  · exact h1
  · exact h1
  · simp only [Except.ok.injEq] at h; subst h; simp at hflag

/-- A recorded newly used area only arises on a harvest, and then the used
area ends exactly at the built area (when min_density is nonzero). -/
lemma harvestStep_new_area_flag {cfg : RunConfig} {built used seaweed density : ℝ}
    {hi : ℕ} {cum prev_need : ℝ} {hr : HarvestResult}
    (hmin : cfg.min_density ≠ 0)
    (h : harvestStep cfg built used seaweed density hi cum prev_need = .ok hr)
    (hflag : hr.rec_new_area_used.isSome) : hr.area_used = built := by
  simp only [harvestStep] at h
  split_ifs at h with h1 h2 h3
  · simp only [Except.ok.injEq] at h; subst h; simp only; field_simp
  · simp only [Except.ok.injEq] at h; subst h; simp only; field_simp
  · simp only [Except.ok.injEq] at h; subst h; simp at hflag

/-- Without a harvest the block is the identity on the state, with the
interval counter incremented. -/
lemma harvestStep_no_harvest {cfg : RunConfig} {built used seaweed density : ℝ}
    {hi : ℕ} {cum prev_need : ℝ} (hlt : density < cfg.max_density) :
    harvestStep cfg built used seaweed density hi cum prev_need =
      .ok ⟨used, seaweed, prev_need, cum, hi + 1, none, none, none, none, none, none⟩ := by
  simp only [harvestStep]
  rw [if_neg (not_le.mpr hlt)]

/-- Built area stays at or below the maximum when it starts there. -/
lemma buildStep_le {cfg : RunConfig} {day : ℕ} {nma ga built : ℝ} {track : Bool}
    (h : built ≤ cfg.max_area) :
    (buildStep cfg day nma ga built track).area_built ≤ cfg.max_area := by
  unfold buildStep
  split_ifs <;> simp only [] <;> linarith

/-- Built area at the maximum is left unchanged by the building block. -/
lemma buildStep_at_max {cfg : RunConfig} {day : ℕ} {nma ga built : ℝ} {track : Bool}
    (h : built = cfg.max_area) :
    (buildStep cfg day nma ga built track).area_built = built := by
  unfold buildStep
  split_ifs <;> simp only [] <;> linarith

/-- Built area never shrinks when the usable increment is non-negative. -/
lemma buildStep_ge {cfg : RunConfig} {day : ℕ} {nma ga built : ℝ} {track : Bool}
    (h : 0 ≤ ga) :
    built ≤ (buildStep cfg day nma ga built track).area_built := by
  unfold buildStep
  split_ifs <;> simp only [] <;> linarith

/-- Clamping: on a day on which cumulative building would first exceed the
maximum, the built area is set exactly to the maximum. -/
lemma buildStep_clamp {cfg : RunConfig} {day : ℕ} {nma ga built : ℝ} {track : Bool}
    (hday : cfg.initial_lag < day) (hlt : built < cfg.max_area)
    (hover : cfg.max_area < built + ga) :
    (buildStep cfg day nma ga built track).area_built = cfg.max_area := by
  unfold buildStep
  rw [if_pos hday, if_pos hlt]
  simp only []
  rw [if_pos hover]

/-- Numeric bound for the logistic curve: the exponential of nine halves
stays below 91. -/
lemma exp_nine_halves_lt : Real.exp (9 / 2) < 91 := by
  have h1 : Real.exp 1 < 2.7182818286 := Real.exp_one_lt_d9
  have h0 : (0:ℝ) < Real.exp (1 / 2) := Real.exp_pos _
  have hsq : Real.exp (1 / 2) ^ (2:ℕ) = Real.exp 1 := by
    rw [show (1:ℝ) = ((2:ℕ):ℝ) * (1 / 2) by norm_num, Real.exp_nat_mul]
    norm_num
  have hhalf : Real.exp (1 / 2) < 1.649 := by
    nlinarith [hsq, h1, h0]
  have h92 : Real.exp (9 / 2) = Real.exp (1 / 2) ^ (9:ℕ) := by
    rw [show (9:ℝ) / 2 = ((9:ℕ):ℝ) * (1 / 2) by norm_num, Real.exp_nat_mul]
  rw [h92]
  calc Real.exp (1 / 2) ^ (9:ℕ) < 1.649 ^ (9:ℕ) :=
        pow_lt_pow_left₀ hhalf (le_of_lt h0) (by norm_num)
    _ < 91 := by norm_num

/-- The fitted logistic build-out curve is positive for non-negative days. -/
lemma seaweed_farm_area_per_day_pos {d : ℝ} (hd : 0 ≤ d) :
    0 < seaweed_farm_area_per_day d := by
  unfold seaweed_farm_area_per_day logistic_curve
  have hE : Real.exp (-0.0283799528 * (d - 157.630971)) ≤ Real.exp (9 / 2) :=
    Real.exp_le_exp.mpr (by nlinarith)
  have hE91 : Real.exp (-0.0283799528 * (d - 157.630971)) < 91 :=
    lt_of_le_of_lt hE exp_nine_halves_lt
  have hEpos : 0 < Real.exp (-0.0283799528 * (d - 157.630971)) := Real.exp_pos _
  have hden : 0 < 1 + Real.exp (-0.0283799528 * (d - 157.630971)) := by linarith
  have hfrac : (4156.10385 : ℝ) / 92 <
      4156.10385 / (1 + Real.exp (-0.0283799528 * (d - 157.630971))) := by
    apply div_lt_div_of_pos_left (by norm_num) hden (by linarith)
  nlinarith [hfrac]

/-- End-of-day projections of a successful day step. -/
lemma dayStep_proj {cfg : RunConfig} {day : ℕ} {s s' : EngineState} {r : DailyRecord}
    (h : dayStep cfg day s = .ok (s', r)) :
    s'.area_built = (dayBuild cfg day s).area_built ∧
    s'.new_module_area = dayNMA day s ∧
    s.cumulative_harvest_for_food ≤ s'.cumulative_harvest_for_food := by
  obtain ⟨ssf, agr, hr, hss, hag, h2, h0, hh, hs, hrr⟩ := dayStep_ok_elim h
  subst hs
  exact ⟨rfl, rfl, harvestStep_cum_le hh⟩

/-- A successful day cannot push the built area above the maximum. -/
lemma dayStep_built_le {cfg : RunConfig} {day : ℕ} {s s' : EngineState} {r : DailyRecord}
    (h : dayStep cfg day s = .ok (s', r)) (hle : s.area_built ≤ cfg.max_area) :
    s'.area_built ≤ cfg.max_area := by
  rw [(dayStep_proj h).1]
  unfold dayBuild
  exact buildStep_le hle

/-- A successful day keeps a built area that equals the maximum unchanged. -/
lemma dayStep_built_at_max {cfg : RunConfig} {day : ℕ} {s s' : EngineState}
    {r : DailyRecord} (h : dayStep cfg day s = .ok (s', r))
    (heq : s.area_built = cfg.max_area) : s'.area_built = cfg.max_area := by
  rw [(dayStep_proj h).1]
  unfold dayBuild
  rw [buildStep_at_max heq]
  exact heq

/-- A successful day preserves used-below-built (and non-negativity of the
carried build rate) when the usable percentage is non-negative, the initial
build rate is replaced only by the positive logistic curve, and min_density
is nonzero. -/
lemma dayStep_used_le {cfg : RunConfig} {day : ℕ} {s s' : EngineState} {r : DailyRecord}
    (hpct : 0 ≤ cfg.percent_usable_for_growth) (hmin : cfg.min_density ≠ 0)
    (h : dayStep cfg day s = .ok (s', r))
    (hP : s.area_used ≤ s.area_built ∧ 0 ≤ s.new_module_area) :
    s'.area_used ≤ s'.area_built ∧ 0 ≤ s'.new_module_area := by
  obtain ⟨ssf, agr, hr, hss, hag, h2, h0, hh, hs, hrr⟩ := dayStep_ok_elim h
  have hnma : 0 ≤ dayNMA day s := by
    unfold dayNMA dailyBuildArea
    split_ifs with hpos
    · exact le_of_lt (seaweed_farm_area_per_day_pos (Nat.cast_nonneg day))
    · exact hP.2
  have hga : 0 ≤ dayNMA day s * (cfg.percent_usable_for_growth / 100) :=
    mul_nonneg hnma (by positivity)
  have hbge : s.area_built ≤ (dayBuild cfg day s).area_built := by
    unfold dayBuild
    exact buildStep_ge hga
  subst hs
  refine ⟨?_, hnma⟩
  rcases harvestStep_area_used hmin hh with hcase | hcase
  · show hr.area_used ≤ (dayBuild cfg day s).area_built
    rw [hcase]
    exact le_trans hP.1 hbge
  · show hr.area_used ≤ (dayBuild cfg day s).area_built
    rw [hcase]

/-- A row with a recorded harvest interval is recorded with the pre-harvest
density, which is at least the maximum density. -/
lemma dayStep_harvest_density {cfg : RunConfig} {day : ℕ} {s s' : EngineState}
    {r : DailyRecord} (h : dayStep cfg day s = .ok (s', r))
    (hflag : r.harvest_intervall.isSome) : cfg.max_density ≤ r.current_density := by
  obtain ⟨ssf, agr, hr, hss, hag, h2, h0, hh, hs, hrr⟩ := dayStep_ok_elim h
  subst hrr
  exact harvestStep_flag_density hh hflag

/-- A row with a recorded newly used area ends the day with used area equal
to built area (when min_density is nonzero). -/
lemma dayStep_new_area_used {cfg : RunConfig} {day : ℕ} {s s' : EngineState}
    {r : DailyRecord} (hmin : cfg.min_density ≠ 0)
    (h : dayStep cfg day s = .ok (s', r)) (hflag : r.new_area_used.isSome) :
    r.current_area_used = r.current_area_built := by
  obtain ⟨ssf, agr, hr, hss, hag, h2, h0, hh, hs, hrr⟩ := dayStep_ok_elim h
  subst hrr
  exact harvestStep_new_area_flag hmin hh hflag

/-- With a scalar growth-rate fraction of zero the multiplier is exactly 1. -/
lemma actualGrowthRate_scalar_zero {ogr ssf : ℝ} {day : ℕ} {agr : ℝ}
    (h : actualGrowthRate (.scalar 0) ogr ssf day = .ok agr) : agr = 1 := by
  unfold actualGrowthRate at h
  split_ifs at h with hssf
  simp only [Except.ok.injEq] at h
  linarith [h, (by ring : ogr * 0 * ssf / 100 = (0:ℝ))]

/-- With a scalar growth-rate fraction of zero and density below the
harvest threshold, the run changes nothing: every row records a growth
multiplier of 1 and the unchanged biomass. -/
lemma runAux_scalar_zero {cfg : RunConfig} (hg : cfg.growth_rate_fraction = .scalar 0) :
    ∀ fuel day s t, runAux cfg day fuel s = .ok t →
      s.density = s.seaweed / s.area_used → s.density < cfg.max_density →
      ∀ r ∈ t, r.actual_growth_rate_multiplicator = 1 ∧ r.current_seaweed = s.seaweed := by
  intro fuel
  induction fuel with
  | zero =>
    intro day s t h _ _ r hr
    simp only [runAux, Except.ok.injEq] at h
    subst h
    simp at hr
  | succ n ih =>
    intro day s t h hd hlt r hr
    rw [runAux] at h
    cases hds : dayStep cfg day s with
    | error e => simp only [hds] at h; cases h
    | ok sr =>
      simp only [hds] at h
      cases hrest : runAux cfg (day + 1) n sr.1 with
      | error e => simp only [hrest] at h; cases h
      | ok t' =>
        simp only [hrest, Except.ok.injEq] at h
        subst h
        obtain ⟨ssf, agr, hr2, hss, hag, h2, h0, hh, hs, hrr⟩ :=
          dayStep_ok_elim (show dayStep cfg day s = .ok (sr.1, sr.2) by simpa using hds)
        rw [hg] at hag
        have hagr1 : agr = 1 := actualGrowthRate_scalar_zero hag
        subst hagr1
        have hd1 : s.seaweed * 1 / s.area_used < cfg.max_density := by
          rw [mul_one, ← hd]
          exact hlt
        rw [harvestStep_no_harvest hd1, Except.ok.injEq] at hh
        rcases List.mem_cons.mp hr with hEq | hMem
        · subst hEq
          rw [hrr, ← hh]
          exact ⟨rfl, by simp [assembleRecord]⟩
        · have hs1sw : sr.1.seaweed = s.seaweed := by
            rw [hs, ← hh]
            simp [assembleState]
          have hs1au : sr.1.area_used = s.area_used := by
            rw [hs, ← hh]
            simp [assembleState]
          have hs1d : sr.1.density = sr.1.seaweed / sr.1.area_used := by
            rw [hs, ← hh]
            simp [assembleState]
          have hs1lt : sr.1.density < cfg.max_density := by
            rw [hs1d, hs1sw, hs1au, ← hd]
            exact hlt
          have := ih (day + 1) sr.1 t' hrest hs1d hs1lt r hMem
          rw [hs1sw] at this
          exact this

/-- A successful multiplier computation in series mode proves the day
index is inside the series. -/
lemma actualGrowthRate_series_lt {xs : List ℝ} {ogr ssf : ℝ} {day : ℕ} {agr : ℝ}
    (h : actualGrowthRate (.series xs) ogr ssf day = .ok agr) : day < xs.length := by
  simp only [actualGrowthRate] at h
  split_ifs at h with hall
  by_contra hge
  simp only [List.getElem?_eq_none (le_of_not_lt hge)] at h
  cases h

/-- A successful run in series mode visits only day indices inside the
series. -/
lemma runAux_series_bound {cfg : RunConfig} {xs : List ℝ}
    (hg : cfg.growth_rate_fraction = .series xs) :
    ∀ fuel day s t, runAux cfg day fuel s = .ok t → ∀ k, k < fuel →
      day + k < xs.length := by
  intro fuel
  induction fuel with
  | zero => intro day s t h k hk; omega
  | succ n ih =>
    intro day s t h k hk
    rw [runAux] at h
    cases hds : dayStep cfg day s with
    | error e => simp only [hds] at h; cases h
    | ok sr =>
      simp only [hds] at h
      cases hrest : runAux cfg (day + 1) n sr.1 with
      | error e => simp only [hrest] at h; cases h
      | ok t' =>
        obtain ⟨ssf, agr, hr2, hss, hag, -, -, -, -, -⟩ :=
          dayStep_ok_elim (show dayStep cfg day s = .ok (sr.1, sr.2) by simpa using hds)
        rw [hg] at hag
        have hday : day < xs.length := actualGrowthRate_series_lt hag
        rcases Nat.eq_zero_or_pos k with hk0 | hkpos
        · omega
        · have := ih (day + 1) sr.1 t' hrest (k - 1) (by omega)
          omega

/-- Self shading succeeds on every positive density. -/
lemma self_shading_pos_ok {d : ℝ} (hd : 0 < d) : ∃ y, self_shading d = .ok y := by
  unfold self_shading
  rw [if_pos hd]
  by_cases h4 : d < 0.4
  · exact ⟨1, by rw [if_pos h4]⟩
  · exact ⟨_, by rw [if_neg h4]⟩

/-- Concrete one-day run: growth multiplier 1 and no harvest. -/
noncomputable def cfgA : RunConfig :=
  { initial_seaweed := 300
    initial_area_built := 1
    initial_area_used := 1
    new_module_area_per_day := 0
    min_density := 100
    max_density := 1000
    max_area := 5
    optimal_growth_rate := 10
    growth_rate_fraction := .scalar 0
    initial_lag := 0
    percent_usable_for_growth := 50
    days_to_run := 1
    harvest_loss := 10
    calibration_run := false }

/-- The single row produced by the cfgA run. -/
noncomputable def recA : DailyRecord :=
  { new_module_area_per_day := 0
    actual_growth_rate_multiplicator := 1
    harvest_intervall := none
    seaweed_remaining_to_grow := none
    harvest_wet := none
    harvest_wet_with_loss := none
    harvest_for_food := none
    new_area_used := none
    current_seaweed_need := 0
    current_area_built := 1
    current_area_used := 1
    current_seaweed := 300
    current_density := 300
    cumulative_harvest_for_food := 0 }

lemma cfgA_run : seaweed_growth cfgA = .ok [recA] := by
  unfold seaweed_growth
  norm_num [runAux, dayStep, dayBuild, dayNMA, dailyBuildArea, buildStep,
    self_shading, actualGrowthRate, harvestStep, assembleState, assembleRecord,
    initState, cfgA, recA]

/-- Concrete one-day run with an insufficient harvest (case A): the built
but unused area is 2, min_density is 100, the harvest after loss is 100. -/
noncomputable def cfgC1 : RunConfig :=
  { initial_seaweed := 300
    initial_area_built := 3
    initial_area_used := 1
    new_module_area_per_day := 0
    min_density := 100
    max_density := 300
    max_area := 5
    optimal_growth_rate := 10
    growth_rate_fraction := .scalar 0
    initial_lag := 0
    percent_usable_for_growth := 100
    days_to_run := 1
    harvest_loss := 50
    calibration_run := false }

/-- The single row produced by the cfgC1 run. -/
noncomputable def recC1 : DailyRecord :=
  { new_module_area_per_day := 0
    actual_growth_rate_multiplicator := 1
    harvest_intervall := some 0
    seaweed_remaining_to_grow := some 100
    harvest_wet := some 200
    harvest_wet_with_loss := some 100
    harvest_for_food := none
    new_area_used := some 2
    current_seaweed_need := 200
    current_area_built := 3
    current_area_used := 3
    current_seaweed := 200
    current_density := 300
    cumulative_harvest_for_food := 0 }

lemma cfgC1_run : seaweed_growth cfgC1 = .ok [recC1] := by
  unfold seaweed_growth
  norm_num [runAux, dayStep, dayBuild, dayNMA, dailyBuildArea, buildStep,
    self_shading, actualGrowthRate, harvestStep, assembleState, assembleRecord,
    initState, cfgC1, recC1]

/-- Concrete one-day run with a harvest at density 600 against a maximum
density of 300. -/
noncomputable def cfgC2 : RunConfig :=
  { initial_seaweed := 300
    initial_area_built := 1
    initial_area_used := 1
    new_module_area_per_day := 0
    min_density := 100
    max_density := 300
    max_area := 5
    optimal_growth_rate := 100
    growth_rate_fraction := .scalar 1
    initial_lag := 0
    percent_usable_for_growth := 100
    days_to_run := 1
    harvest_loss := 0
    calibration_run := false }

/-- The single row produced by the cfgC2 run. -/
noncomputable def recC2 : DailyRecord :=
  { new_module_area_per_day := 0
    actual_growth_rate_multiplicator := 2
    harvest_intervall := some 0
    seaweed_remaining_to_grow := some 100
    harvest_wet := some 500
    harvest_wet_with_loss := some 500
    harvest_for_food := some 500
    new_area_used := some 0
    current_seaweed_need := 0
    current_area_built := 1
    current_area_used := 1
    current_seaweed := 100
    current_density := 600
    cumulative_harvest_for_food := 500 }

lemma cfgC2_run : seaweed_growth cfgC2 = .ok [recC2] := by
  unfold seaweed_growth
  norm_num [runAux, dayStep, dayBuild, dayNMA, dailyBuildArea, buildStep,
    self_shading, actualGrowthRate, harvestStep, assembleState, assembleRecord,
    initState, cfgC2, recC2]

/-- Concrete one-day configuration whose growth-rate fraction has an
unsupported runtime type. -/
noncomputable def cfgC3 : RunConfig :=
  { initial_seaweed := 300
    initial_area_built := 1
    initial_area_used := 1
    new_module_area_per_day := 0
    min_density := 100
    max_density := 300
    max_area := 5
    optimal_growth_rate := 10
    growth_rate_fraction := .invalid
    initial_lag := 0
    percent_usable_for_growth := 100
    days_to_run := 1
    harvest_loss := 0
    calibration_run := false }

lemma cfgC3_day0 : dayStep cfgC3 0 (initState cfgC3) =
    .error (.typeError, ⟨some 0, none, none, none, none⟩) := by
  norm_num [dayStep, dayBuild, dayNMA, dailyBuildArea, buildStep, self_shading,
    actualGrowthRate, initState, cfgC3]

/-- Concrete one-day run with a scalar growth-rate fraction of zero whose
initial density already triggers a harvest. -/
noncomputable def cfgC9 : RunConfig :=
  { initial_seaweed := 300
    initial_area_built := 1
    initial_area_used := 1
    new_module_area_per_day := 0
    min_density := 50
    max_density := 100
    max_area := 5
    optimal_growth_rate := 10
    growth_rate_fraction := .scalar 0
    initial_lag := 0
    percent_usable_for_growth := 100
    days_to_run := 1
    harvest_loss := 0
    calibration_run := false }

/-- The single row produced by the cfgC9 run. -/
noncomputable def recC9 : DailyRecord :=
  { new_module_area_per_day := 0
    actual_growth_rate_multiplicator := 1
    harvest_intervall := some 0
    seaweed_remaining_to_grow := some 50
    harvest_wet := some 250
    harvest_wet_with_loss := some 250
    harvest_for_food := some 250
    new_area_used := some 0
    current_seaweed_need := 0
    current_area_built := 1
    current_area_used := 1
    current_seaweed := 50
    current_density := 300
    cumulative_harvest_for_food := 250 }

lemma cfgC9_run : seaweed_growth cfgC9 = .ok [recC9] := by
  unfold seaweed_growth
  norm_num [runAux, dayStep, dayBuild, dayNMA, dailyBuildArea, buildStep,
    self_shading, actualGrowthRate, harvestStep, assembleState, assembleRecord,
    initState, cfgC9, recC9]

/-- Concrete two-day run with a negative constant build rate: the built
area shrinks below the used area on day 1. -/
noncomputable def cfgC10 : RunConfig :=
  { initial_seaweed := 300
    initial_area_built := 1
    initial_area_used := 1
    new_module_area_per_day := -1
    min_density := 100
    max_density := 10000
    max_area := 100
    optimal_growth_rate := 10
    growth_rate_fraction := .scalar 0
    initial_lag := 0
    percent_usable_for_growth := 100
    days_to_run := 2
    harvest_loss := 0
    calibration_run := false }

/-- Day-0 row of the cfgC10 run. -/
noncomputable def recC10a : DailyRecord :=
  { new_module_area_per_day := 0
    actual_growth_rate_multiplicator := 1
    harvest_intervall := none
    seaweed_remaining_to_grow := none
    harvest_wet := none
    harvest_wet_with_loss := none
    harvest_for_food := none
    new_area_used := none
    current_seaweed_need := 0
    current_area_built := 1
    current_area_used := 1
    current_seaweed := 300
    current_density := 300
    cumulative_harvest_for_food := 0 }

/-- Day-1 row of the cfgC10 run: built area 0, used area 1. -/
noncomputable def recC10b : DailyRecord :=
  { new_module_area_per_day := -1
    actual_growth_rate_multiplicator := 1
    harvest_intervall := none
    seaweed_remaining_to_grow := none
    harvest_wet := none
    harvest_wet_with_loss := none
    harvest_for_food := none
    new_area_used := none
    current_seaweed_need := 0
    current_area_built := 0
    current_area_used := 1
    current_seaweed := 300
    current_density := 300
    cumulative_harvest_for_food := 0 }

lemma cfgC10_run : seaweed_growth cfgC10 = .ok [recC10a, recC10b] := by
  unfold seaweed_growth
  norm_num [runAux, dayStep, dayBuild, dayNMA, dailyBuildArea, buildStep,
    self_shading, actualGrowthRate, harvestStep, assembleState, assembleRecord,
    initState, cfgC10, recC10a, recC10b]

/-- Concrete configuration in series mode whose series is shorter than the
number of days to run. -/
noncomputable def cfgC8 : RunConfig :=
  { initial_seaweed := 300
    initial_area_built := 1
    initial_area_used := 1
    new_module_area_per_day := 0
    min_density := 100
    max_density := 1000
    max_area := 5
    optimal_growth_rate := 10
    growth_rate_fraction := .series [0.5]
    initial_lag := 0
    percent_usable_for_growth := 100
    days_to_run := 2
    harvest_loss := 0
    calibration_run := false }

/-- The single row produced by the one-day calibration run with a scalar
growth-rate fraction of zero. -/
noncomputable def recCal : DailyRecord :=
  { new_module_area_per_day := 0
    actual_growth_rate_multiplicator := 1
    harvest_intervall := none
    seaweed_remaining_to_grow := none
    harvest_wet := none
    harvest_wet_with_loss := none
    harvest_for_food := none
    new_area_used := none
    current_seaweed_need := 0
    current_area_built := 1
    current_area_used := 1
    current_seaweed := 1
    current_density := 1
    cumulative_harvest_for_food := 0 }

lemma cfgCal_run : seaweed_growth (calibrationConfig 10 (.scalar 0) 1 50 20) =
    .ok [recCal] := by
  unfold seaweed_growth
  norm_num [runAux, dayStep, dayBuild, dayNMA, dailyBuildArea, buildStep,
    self_shading, actualGrowthRate, harvestStep, assembleState, assembleRecord,
    initState, calibrationConfig, recCal]

/-- Claim C4: the self-shading function fails with a DomainError for every
non-positive density, returns exactly 1 for every density in (0, 0.4)
kg/m², and for every density at least 0.4 kg/m² returns
exp(-0.513 (density - 0.4)), which lies in [0, 1] and is strictly
decreasing in density. -/
theorem claim4_self_shading :
    (∀ d : ℝ, d ≤ 0 → self_shading d = .error .domainError) ∧
    (∀ d : ℝ, 0 < d → d < 0.4 → self_shading d = .ok 1) ∧
    (∀ d : ℝ, 0.4 ≤ d → self_shading d = .ok (Real.exp (-0.513 * (d - 0.4))) ∧
      0 ≤ Real.exp (-0.513 * (d - 0.4)) ∧ Real.exp (-0.513 * (d - 0.4)) ≤ 1) ∧
    (∀ d₁ d₂ : ℝ, 0.4 ≤ d₁ → d₁ < d₂ →
      Real.exp (-0.513 * (d₂ - 0.4)) < Real.exp (-0.513 * (d₁ - 0.4))) := by
  refine ⟨?_, ?_, ?_, ?_⟩
  · intro d hd
    unfold self_shading
    rw [if_neg (not_lt.mpr hd)]
  · intro d h0 h4
    unfold self_shading
    rw [if_pos h0, if_pos h4]
  · intro d hd
    have h0 : (0:ℝ) < d := lt_of_lt_of_le (by norm_num) hd
    refine ⟨?_, le_of_lt (Real.exp_pos _), ?_⟩
    · unfold self_shading
      rw [if_pos h0, if_neg (not_lt.mpr hd)]
    · rw [Real.exp_le_one_iff]
      nlinarith
  · intro d₁ d₂ h1 h12
    exact Real.exp_lt_exp.mpr (by nlinarith)

/-- Witness for the C4 theorem at the densities -1, 0.2, 0.5 and 0.6. -/
theorem claim4_witness :
    self_shading (-1) = .error .domainError ∧ self_shading 0.2 = .ok 1 ∧
    self_shading 0.5 = .ok (Real.exp (-0.513 * (0.5 - 0.4))) ∧
    Real.exp (-0.513 * ((0.6:ℝ) - 0.4)) < Real.exp (-0.513 * ((0.5:ℝ) - 0.4)) := by
  exact ⟨claim4_self_shading.1 (-1) (by norm_num),
    claim4_self_shading.2.1 0.2 (by norm_num) (by norm_num),
    (claim4_self_shading.2.2.1 0.5 (by norm_num)).1,
    claim4_self_shading.2.2.2 0.5 0.6 (by norm_num) (by norm_num)⟩

/-- Claim C1 (amended): in case A (need exceeds the harvest after loss) the
harvest block activates need / min_density of new used area - that is, all
built-but-unused area, not harvest_after_loss / min_density - expands the
used area by exactly that amount, sets the biomass to
remaining + harvest_after_loss and records no food harvest. -/
theorem claim1_caseA_amended {cfg : RunConfig} {built used seaweed density : ℝ}
    {hi : ℕ} {cum prev_need : ℝ} {hr : HarvestResult}
    (hdens : cfg.max_density ≤ density)
    (hloss : cfg.harvest_loss / 100 ≤ 1 ∧ 0 ≤ cfg.harvest_loss / 100)
    (hneed : (seaweed - used * cfg.min_density) * (1 - cfg.harvest_loss / 100) <
      (built - used) * cfg.min_density)
    (hmin : cfg.min_density ≠ 0)
    (h : harvestStep cfg built used seaweed density hi cum prev_need = .ok hr) :
    hr.rec_new_area_used = some (built - used) ∧
    hr.area_used = used + (built - used) ∧
    hr.seaweed = used * cfg.min_density +
      (seaweed - used * cfg.min_density) * (1 - cfg.harvest_loss / 100) ∧
    hr.rec_harvest_for_food = none ∧
    hr.cumulative_harvest_for_food = cum := by
  have hcancel : (built - used) * cfg.min_density / cfg.min_density = built - used :=
    mul_div_cancel_right₀ _ hmin
  simp only [harvestStep] at h
  rw [if_pos hdens, if_pos hloss, if_pos hneed] at h
  simp only [Except.ok.injEq] at h
  subst h
  exact ⟨by rw [hcancel], by rw [hcancel], rfl, rfl, rfl⟩

/-- Concrete harvest-block result for the cfgC1 harvest inputs. -/
noncomputable def hrC1 : HarvestResult :=
  { area_used := 3
    seaweed := 200
    seaweed_need := 200
    cumulative_harvest_for_food := 0
    harvest_intervall := 1
    rec_harvest_intervall := some 0
    rec_seaweed_remaining_to_grow := some 100
    rec_harvest_wet := some 200
    rec_harvest_wet_with_loss := some 100
    rec_harvest_for_food := none
    rec_new_area_used := some 2 }

lemma hrC1_eval : harvestStep cfgC1 3 1 300 300 0 0 0 = .ok hrC1 := by
  norm_num [harvestStep, cfgC1, hrC1]

/-- Witness for the amended C1 theorem at the cfgC1 harvest inputs. -/
theorem claim1_witness :
    hrC1.rec_new_area_used = some ((3:ℝ) - 1) ∧
    hrC1.area_used = 1 + ((3:ℝ) - 1) ∧
    hrC1.seaweed = 1 * cfgC1.min_density +
      (300 - 1 * cfgC1.min_density) * (1 - cfgC1.harvest_loss / 100) ∧
    hrC1.rec_harvest_for_food = none ∧
    hrC1.cumulative_harvest_for_food = 0 := by
  exact claim1_caseA_amended (by norm_num [cfgC1]) (by norm_num [cfgC1])
    (by norm_num [cfgC1]) (by norm_num [cfgC1]) hrC1_eval

/-- Counterexample to claim C1 as stated: in the cfgC1 run, case A fires
with harvest after loss 100 and min_density 100, so the claim predicts a
newly used area of 100 / 100 = 1 and a used-area expansion from 1 to 2, but
the code records new_area_used = 2 and expands the used area to 3. -/
theorem claim1_counterexample :
    seaweed_growth cfgC1 = .ok [recC1] ∧
    recC1.current_seaweed_need = 200 ∧
    recC1.harvest_wet_with_loss = some 100 ∧
    cfgC1.min_density = 100 ∧
    recC1.new_area_used = some 2 ∧
    recC1.current_area_used = 3 ∧
    ¬ ((2 : ℝ) = 100 / 100) :=
  ⟨cfgC1_run, rfl, rfl, rfl, rfl, rfl, by norm_num⟩

/-- Claim C2 (amended): the density stored in a harvest day's row is the
pre-harvest density of that day, which is at least max_density; it is not
recomputed after the harvest redistribution. -/
theorem claim2_amended {cfg : RunConfig} {t : List DailyRecord}
    (hrun : seaweed_growth cfg = .ok t) :
    ∀ r ∈ t, r.harvest_intervall.isSome → cfg.max_density ≤ r.current_density := by
  unfold seaweed_growth at hrun
  intro r hr hflag
  obtain ⟨day', s₀, s₁, -, hstep⟩ :=
    runAux_all cfg (fun _ => True) (fun _ _ _ _ _ _ => trivial)
      cfg.days_to_run 0 (initState cfg) t hrun trivial r hr
  exact dayStep_harvest_density hstep hflag

/-- Witness for the amended C2 theorem on the cfgC2 run. -/
theorem claim2_witness : cfgC2.max_density ≤ recC2.current_density := by
  exact claim2_amended cfgC2_run recC2 (by simp) rfl

/-- Counterexample to claim C2 as stated: in the cfgC2 run a harvest fires
on day 0 and the recorded density is 600, strictly above max_density =
300. -/
theorem claim2_counterexample :
    seaweed_growth cfgC2 = .ok [recC2] ∧
    recC2.harvest_intervall = some 0 ∧
    cfgC2.max_density = 300 ∧
    recC2.current_density = 600 ∧
    ¬ ((600 : ℝ) ≤ 300) :=
  ⟨cfgC2_run, rfl, rfl, rfl, by norm_num⟩

/-- Claim C3 (amended): an unsupported growth-rate-fraction shape makes the
run fail with the TypeError of line 151, but the failure is raised inside
the day-0 iteration, after the day-0 area entry has been written to df. -/
theorem claim3_amended {cfg : RunConfig}
    (hg : cfg.growth_rate_fraction = .invalid) (hdays : 0 < cfg.days_to_run)
    (hsw : 0 < cfg.initial_seaweed) (hau : 0 < cfg.initial_area_used) :
    seaweed_growth cfg = .error .typeError ∧
    dayStep cfg 0 (initState cfg) = .error (.typeError,
      ⟨some (dayBuild cfg 0 (initState cfg)).recorded_new_module_area,
        none, none, none, none⟩) := by
  have hdpos : 0 < (initState cfg).density / 1000 := by
    have h1 : 0 < (initState cfg).density := div_pos hsw hau
    exact div_pos h1 (by norm_num)
  obtain ⟨y, hy⟩ := self_shading_pos_ok hdpos
  have hstep : dayStep cfg 0 (initState cfg) = .error (.typeError,
      ⟨some (dayBuild cfg 0 (initState cfg)).recorded_new_module_area,
        none, none, none, none⟩) := by
    unfold dayStep
    simp only [hy, hg, actualGrowthRate]
  refine ⟨?_, hstep⟩
  obtain ⟨n, hn⟩ : ∃ n, cfg.days_to_run = n + 1 := ⟨cfg.days_to_run - 1, by omega⟩
  unfold seaweed_growth
  rw [hn]
  simp only [runAux, hstep]

/-- Witness for the amended C3 theorem on cfgC3. -/
theorem claim3_witness : seaweed_growth cfgC3 = .error .typeError := by
  exact (claim3_amended rfl (by norm_num [cfgC3]) (by norm_num [cfgC3])
    (by norm_num [cfgC3])).1

/-- Counterexample to claim C3 as stated: on cfgC3 the TypeError is raised
during the day-0 iteration with the day-0 area entry (value 0) already
written, contradicting that no day-0 DailyRecord field is written before
the failure. -/
theorem claim3_counterexample :
    seaweed_growth cfgC3 = .error .typeError ∧
    dayStep cfgC3 0 (initState cfgC3) =
      .error (.typeError, ⟨some 0, none, none, none, none⟩) ∧
    (some (0:ℝ)).isSome = true := by
  refine ⟨?_, cfgC3_day0, rfl⟩
  unfold seaweed_growth
  norm_num [runAux, dayStep, dayBuild, dayNMA, dailyBuildArea, buildStep,
    self_shading, actualGrowthRate, initState, cfgC3]

/-- Claim C5: for runs starting at or below max_area the built area of
every row stays at or below max_area; once it equals max_area it never
changes; and on the day cumulative building would first exceed max_area it
is clamped exactly to max_area. -/
theorem claim5_area_cap {cfg : RunConfig} {t : List DailyRecord}
    (hinit : cfg.initial_area_built ≤ cfg.max_area)
    (hrun : seaweed_growth cfg = .ok t) :
    (∀ r ∈ t, r.current_area_built ≤ cfg.max_area) ∧
    (∀ i j : Fin t.length, i ≤ j → (t.get i).current_area_built = cfg.max_area →
      (t.get j).current_area_built = cfg.max_area) ∧
    (∀ (day : ℕ) (nma ga built : ℝ) (track : Bool), cfg.initial_lag < day →
      built < cfg.max_area → cfg.max_area < built + ga →
      (buildStep cfg day nma ga built track).area_built = cfg.max_area) := by
  unfold seaweed_growth at hrun
  refine ⟨?_, ?_, ?_⟩
  · intro r hr
    obtain ⟨day', s₀, s₁, hP, hstep⟩ :=
      runAux_all cfg (fun s => s.area_built ≤ cfg.max_area)
        (fun day s s' r h hP => dayStep_built_le h hP)
        cfg.days_to_run 0 (initState cfg) t hrun hinit r hr
    rw [(dayStep_mirrors hstep).1]
    exact dayStep_built_le hstep hP
  · intro i j hij hmax
    rcases eq_or_lt_of_le hij with hEq | hlt
    · rw [← hEq]
      exact hmax
    · have hpair := (runAux_chain cfg
        (fun sa sb => sa.area_built = cfg.max_area → sb.area_built = cfg.max_area)
        (fun a b c hab hbc hm => hbc (hab hm))
        (fun day s s' r h hm => dayStep_built_at_max h hm)
        cfg.days_to_run 0 (initState cfg) t hrun).2
      obtain ⟨sa, sb, ⟨da, s0a, ha⟩, ⟨db, s0b, hb⟩, hQ⟩ :=
        List.pairwise_iff_get.mp hpair i j hlt
      rw [(dayStep_mirrors hb).1]
      apply hQ
      rw [← (dayStep_mirrors ha).1]
      exact hmax
  · intro day nma ga built track h1 h2 h3
    exact buildStep_clamp h1 h2 h3

/-- Witness for the C5 theorem on the cfgA run. -/
theorem claim5_witness : recA.current_area_built ≤ cfgA.max_area := by
  exact (claim5_area_cap (by norm_num [cfgA]) cfgA_run).1 recA (by simp)

/-- Claim C6: the cumulative food harvest recorded in the rows is
monotonically non-decreasing in the day index. -/
theorem claim6_cum_monotone {cfg : RunConfig} {t : List DailyRecord}
    (_hl0 : 0 ≤ cfg.harvest_loss / 100) (_hl1 : cfg.harvest_loss / 100 ≤ 1)
    (_hminmax : cfg.min_density ≤ cfg.max_density)
    (_hua : cfg.initial_area_used ≤ cfg.initial_area_built)
    (hrun : seaweed_growth cfg = .ok t) :
    ∀ i j : Fin t.length, i ≤ j →
      (t.get i).cumulative_harvest_for_food ≤
        (t.get j).cumulative_harvest_for_food := by
  unfold seaweed_growth at hrun
  intro i j hij
  rcases eq_or_lt_of_le hij with hEq | hlt
  · rw [← hEq]
  · have hpair := (runAux_chain cfg
      (fun sa sb => sa.cumulative_harvest_for_food ≤ sb.cumulative_harvest_for_food)
      (fun a b c hab hbc => le_trans hab hbc)
      (fun day s s' r h => (dayStep_proj h).2.2)
      cfg.days_to_run 0 (initState cfg) t hrun).2
    obtain ⟨sa, sb, ⟨da, s0a, ha⟩, ⟨db, s0b, hb⟩, hQ⟩ :=
      List.pairwise_iff_get.mp hpair i j hlt
    rw [(dayStep_mirrors ha).2.2.2.2.1, (dayStep_mirrors hb).2.2.2.2.1]
    exact hQ

/-- Witness for the C6 theorem on the cfgA run. -/
theorem claim6_witness :
    ([recA].get ⟨0, by norm_num⟩).cumulative_harvest_for_food ≤
      ([recA].get ⟨0, by norm_num⟩).cumulative_harvest_for_food := by
  exact claim6_cum_monotone (by norm_num [cfgA]) (by norm_num [cfgA])
    (by norm_num [cfgA]) (by norm_num [cfgA]) cfgA_run
    ⟨0, by norm_num⟩ ⟨0, by norm_num⟩ (le_refl _)

/-- Claim C7: if the calibration run records no harvest at all, the
calibrator returns an absent productivity (no crash, no division); when a
last harvest interval and a last food harvest are both present, it returns
their quotient. -/
theorem claim7_calibrator {harvest_loss pct ogr : ℝ} {grf : GrowthInput}
    {days : ℕ} {t : List DailyRecord}
    (hrun : seaweed_growth (calibrationConfig harvest_loss grf days pct ogr) = .ok t) :
    ((∀ r ∈ t, r.harvest_intervall = none) →
      determine_average_productivity harvest_loss grf days pct ogr = .ok none) ∧
    (∀ (i : ℕ) (f : ℝ),
      (t.filterMap DailyRecord.harvest_intervall).getLast? = some i →
      (t.filterMap DailyRecord.harvest_for_food).getLast? = some f →
      determine_average_productivity harvest_loss grf days pct ogr =
        .ok (some (f / (i : ℝ)))) := by
  constructor
  · intro hnone
    have hnil : t.filterMap DailyRecord.harvest_intervall = [] :=
      List.filterMap_eq_nil_iff.mpr hnone
    cases hfood : (t.filterMap DailyRecord.harvest_for_food).getLast? with
    | none => simp only [determine_average_productivity, hrun, hnil,
        List.getLast?_nil, hfood]
    | some f => simp only [determine_average_productivity, hrun, hnil,
        List.getLast?_nil, hfood]
  · intro i f hi hf
    simp only [determine_average_productivity, hrun, hi, hf]

/-- Witness for the C7 theorem: a one-day calibration run with zero growth
never harvests and yields an absent productivity. -/
theorem claim7_witness :
    determine_average_productivity 10 (.scalar 0) 1 50 20 = .ok none := by
  refine (claim7_calibrator cfgCal_run).1 ?_
  intro r hr
  rw [List.mem_singleton] at hr
  subst hr
  rfl

/-- Claim C8: in series mode the engine indexes the series by the current
day (given the in-range assert of line 138), and a series shorter than
days_to_run makes the run fail. -/
theorem claim8_series_indexing :
    (∀ (xs : List ℝ) (ogr ssf : ℝ) (day : ℕ) (hday : day < xs.length),
      (∀ x ∈ xs, x ≤ 1 ∧ 0 ≤ x) →
      actualGrowthRate (.series xs) ogr ssf day =
        .ok (1 + (ogr * xs.get ⟨day, hday⟩ * ssf) / 100)) ∧
    (∀ (xs : List ℝ) (ogr ssf : ℝ) (day : ℕ),
      (∀ x ∈ xs, x ≤ 1 ∧ 0 ≤ x) → xs.length ≤ day →
      actualGrowthRate (.series xs) ogr ssf day = .error .indexError) ∧
    (∀ (cfg : RunConfig) (xs : List ℝ), cfg.growth_rate_fraction = .series xs →
      xs.length < cfg.days_to_run → runIsOk (seaweed_growth cfg) = false) := by
  refine ⟨?_, ?_, ?_⟩
  · intro xs ogr ssf day hday hall
    simp only [actualGrowthRate]
    rw [if_pos hall, List.getElem?_eq_getElem hday]
    simp [List.get_eq_getElem]
  · intro xs ogr ssf day hall hle
    simp only [actualGrowthRate]
    rw [if_pos hall, List.getElem?_eq_none hle]
  · intro cfg xs hg hlen
    cases hrun : seaweed_growth cfg with
    | error e => rfl
    | ok t =>
      exfalso
      unfold seaweed_growth at hrun
      have := runAux_series_bound hg cfg.days_to_run 0 (initState cfg) t hrun
        xs.length hlen
      omega

/-- Witness for the C8 theorem: the day-0 lookup in the series with the
single entry one half, and the failing two-day run over that series. -/
theorem claim8_witness :
    actualGrowthRate (.series [0.5]) 10 1 0 =
      .ok (1 + (10 * ([0.5] : List ℝ).get ⟨0, by norm_num⟩ * 1) / 100) ∧
    actualGrowthRate (.series [0.5]) 10 1 1 = .error .indexError ∧
    runIsOk (seaweed_growth cfgC8) = false := by
  refine ⟨?_, ?_, ?_⟩
  · exact claim8_series_indexing.1 [0.5] 10 1 0 (by norm_num) (by norm_num)
  · exact claim8_series_indexing.2.1 [0.5] 10 1 1 (by norm_num) (by norm_num)
  · exact claim8_series_indexing.2.2 cfgC8 [0.5] rfl (by norm_num [cfgC8])

/-- Claim C9 (amended): with a scalar growth-rate fraction of zero and an
initial density below max_density, every row records a growth multiplier of
exactly 1 and the biomass never changes. -/
theorem claim9_zero_growth_amended {cfg : RunConfig} {t : List DailyRecord}
    (hg : cfg.growth_rate_fraction = .scalar 0)
    (hdens : cfg.initial_seaweed / cfg.initial_area_used < cfg.max_density)
    (hrun : seaweed_growth cfg = .ok t) :
    ∀ r ∈ t, r.actual_growth_rate_multiplicator = 1 ∧
      r.current_seaweed = cfg.initial_seaweed := by
  unfold seaweed_growth at hrun
  exact runAux_scalar_zero hg cfg.days_to_run 0 (initState cfg) t hrun rfl hdens

/-- Witness for the amended C9 theorem on the cfgA run. -/
theorem claim9_witness : recA.actual_growth_rate_multiplicator = 1 ∧
    recA.current_seaweed = cfgA.initial_seaweed := by
  exact claim9_zero_growth_amended rfl (by norm_num [cfgA]) cfgA_run recA (by simp)

/-- Counterexample to claim C9 as stated: on cfgC9 the growth-rate
fraction is the scalar 0 and every multiplier is 1, yet the day-0 harvest
changes the biomass from 300 to 50. -/
theorem claim9_counterexample :
    cfgC9.growth_rate_fraction = .scalar 0 ∧
    seaweed_growth cfgC9 = .ok [recC9] ∧
    recC9.actual_growth_rate_multiplicator = 1 ∧
    cfgC9.initial_seaweed = 300 ∧
    recC9.current_seaweed = 50 ∧
    ¬ ((50 : ℝ) = 300) :=
  ⟨rfl, cfgC9_run, rfl, rfl, rfl, by norm_num⟩

/-- Claim C10 (amended): with a non-negative build rate, a non-negative
usable percentage, a nonzero min_density and initial used area at most the
initial built area, the used area of every row stays at or below the built
area, and every harvest row ends with used area equal to built area. -/
theorem claim10_used_le_built_amended {cfg : RunConfig} {t : List DailyRecord}
    (hnma : 0 ≤ cfg.new_module_area_per_day)
    (hpct : 0 ≤ cfg.percent_usable_for_growth)
    (hmin : cfg.min_density ≠ 0)
    (hua : cfg.initial_area_used ≤ cfg.initial_area_built)
    (hrun : seaweed_growth cfg = .ok t) :
    (∀ r ∈ t, r.current_area_used ≤ r.current_area_built) ∧
    (∀ r ∈ t, r.new_area_used.isSome →
      r.current_area_used = r.current_area_built) := by
  unfold seaweed_growth at hrun
  constructor
  · intro r hr
    obtain ⟨day', s₀, s₁, hP, hstep⟩ :=
      runAux_all cfg (fun s => s.area_used ≤ s.area_built ∧ 0 ≤ s.new_module_area)
        (fun day s s' r h hP => dayStep_used_le hpct hmin h hP)
        cfg.days_to_run 0 (initState cfg) t hrun ⟨hua, hnma⟩ r hr
    rw [(dayStep_mirrors hstep).1, (dayStep_mirrors hstep).2.1]
    exact (dayStep_used_le hpct hmin hstep hP).1
  · intro r hr hflag
    obtain ⟨day', s₀, s₁, -, hstep⟩ :=
      runAux_all cfg (fun _ => True) (fun _ _ _ _ _ _ => trivial)
        cfg.days_to_run 0 (initState cfg) t hrun trivial r hr
    exact dayStep_new_area_used hmin hstep hflag

/-- Witness for the amended C10 theorem on the cfgA run. -/
theorem claim10_witness : recA.current_area_used ≤ recA.current_area_built := by
  exact (claim10_used_le_built_amended (by norm_num [cfgA]) (by norm_num [cfgA])
    (by norm_num [cfgA]) (by norm_num [cfgA]) cfgA_run).1 recA (by simp)

/-- Counterexample to claim C10 as stated: on cfgC10 (negative constant
build rate) the initial used area equals the built area, but on day 1 the
built area shrinks to 0 while the used area stays 1. -/
theorem claim10_counterexample :
    cfgC10.initial_area_used ≤ cfgC10.initial_area_built ∧
    seaweed_growth cfgC10 = .ok [recC10a, recC10b] ∧
    recC10b.current_area_used = 1 ∧
    recC10b.current_area_built = 0 ∧
    ¬ ((1 : ℝ) ≤ 0) :=
  ⟨by norm_num [cfgC10], cfgC10_run, rfl, rfl, by norm_num⟩
